import Mathlib

/-!
Shallow embedding of `src/packages/permissions/src/PermissionsAPI.ts`
(the `PermissionsAPI` class: `getPermission`, the sync/async handler
factories `#getHandler` / `#getAsyncHandler`, their change listeners, and
the `#events` WeakMap bookkeeping behind `getPermissionHandler` /
`getAsyncPermissionHandler`).

Modelling conventions:
- JS promise settlement is the `Settled` type: `resolved v` / `rejected r`.
- The live `PermissionStatus` descriptor is a pair of an allocation
  identity (JS object identity) and its current `state` field.
- Callbacks are opaque; we track them by numeric identifiers and record
  every callback firing as an `Emit` (which slot fired, which callback,
  and the argument it received), in program order.
- The static `#events` WeakMap is an association list keyed by handler
  identity, with handler identities drawn from an allocation counter.
-/

namespace PermissionsAPI

/-- Permission states carried by the provider's live status descriptor
(the `state` field of a `PermissionStatus`). -/
inductive PermState
| granted
| prompt
| denied
deriving DecidableEq, Repr

/-- A permission request option: the capability `name` plus the two
optional variant fields (`sysex` for midi, `userVisibleOnly` for push). -/
structure PermissionOption where
  name : String
  sysex : Option Bool := none
  userVisibleOnly : Option Bool := none
deriving DecidableEq, Repr

/-- The provider's live permission-status descriptor. `id` models JS
object identity (which allocation this descriptor is); `state` is the
value of its `state` field at the moment considered. -/
structure PermissionStatus where
  id : Nat
  state : PermState
deriving DecidableEq, Repr

/-- A raw platform error thrown by the provider call: `name` is the JS
error class name (`error.name`), `message` its message. -/
structure ProviderError where
  name : String
  message : String
deriving DecidableEq, Repr

/-- The two error states of the `PermissionError` response shape. -/
inductive ErrorState
| unsupported
| invalid
deriving DecidableEq, Repr

/-- The error response object built in `getPermission`'s catch block:
`\x7b state, name: error.name, message: error.message \x7d`. -/
structure ErrorResponse where
  state : ErrorState
  name : String
  message : String
deriving DecidableEq, Repr

/-- The settlement of a JS promise: resolved with a value or rejected
with a reason. -/
inductive Settled (α : Type) (β : Type)
| resolved (value : α)
| rejected (reason : β)
deriving DecidableEq, Repr

/-- The platform `TypeError` message produced when a permission name is
not a member of the `PermissionName` enumeration. -/
def typeErrorMessage (n : String) : String :=
  "The provided value " ++ n ++ " is not a valid enum value of type PermissionName."

/-- Modelled from the spec: the external permission provider
(`navigator.permissions`, which is host-supplied and not part of src/).
`env` records, for each capability name the host recognizes, the current
permission state; querying an unrecognized name fails with a platform
`TypeError`, and querying a recognized name yields a live descriptor for
it, allocated with identity `freshId`. -/
def providerQuery (env : String → Option PermState) (freshId : Nat)
    (opt : PermissionOption) : Except ProviderError PermissionStatus :=
  match env opt.name with
  | some st => Except.ok ⟨freshId, st⟩
  | none => Except.error ⟨"TypeError", typeErrorMessage opt.name⟩

/-- The classification performed in `getPermission`'s catch block: an
error whose `name` is `"TypeError"` becomes the `unsupported` response,
any other error becomes the `invalid` response. -/
def classifyError (e : ProviderError) : ErrorResponse :=
  if e.name = "TypeError" then ⟨ErrorState.unsupported, e.name, e.message⟩
  else ⟨ErrorState.invalid, e.name, e.message⟩

/-- `PermissionsAPI.getPermission`: awaits the provider query; on success
it resolves the returned promise with the provider's status descriptor;
on failure it catches the raw error and rejects the promise with the
classified error response. -/
def getPermission (providerResult : Except ProviderError PermissionStatus) :
    Settled PermissionStatus ErrorResponse :=
  match providerResult with
  | Except.ok status => Settled.resolved status
  | Except.error e => Settled.rejected (classifyError e)

/-- `getPermission` run against the modelled provider on a concrete
request. -/
def getPermissionIn (env : String → Option PermState) (freshId : Nat)
    (opt : PermissionOption) : Settled PermissionStatus ErrorResponse :=
  getPermission (providerQuery env freshId opt)

end PermissionsAPI

namespace PermissionsAPI

/-- The per-handler record held in the static `#events` WeakMap: up to
four optional callback slots, all empty at handler construction.
Callbacks are tracked by numeric identifier. -/
structure HandlerEvents where
  onPermissionChange : Option Nat := none
  onPermissionGranted : Option Nat := none
  onPermissionDenied : Option Nat := none
  onPermissionError : Option Nat := none
deriving DecidableEq, Repr

/-- The optional `handlerOption` argument of `getPermissionHandler`:
constructor-supplied `granted` / `denied` / `error` callbacks. -/
structure PermissionHandlerOption where
  granted : Option Nat := none
  denied : Option Nat := none
  error : Option Nat := none
deriving DecidableEq, Repr

/-- The argument a fired callback receives: the live status descriptor
(its identity together with its `state` field as read at call time), or
the error response on the failure path. -/
inductive CallArg
| status (id : Nat) (state : PermState)
| failure (e : ErrorResponse)
deriving DecidableEq, Repr

/-- Which callback slot a firing came from: one of the four registered
event slots, or one of the three constructor-option slots. -/
inductive Slot
| change
| grantedEvent
| deniedEvent
| errorEvent
| optGranted
| optDenied
| optError
deriving DecidableEq, Repr

/-- One callback firing: the slot it came from, the callback identifier
invoked, and the argument passed to it. -/
structure Emit where
  slot : Slot
  cb : Nat
  arg : CallArg
deriving DecidableEq, Repr

/-- Fire an optional callback slot: one emission if a callback is
registered there, none otherwise (the `if (cb) cb(arg)` pattern). -/
def fire (s : Slot) (cb : Option Nat) (arg : CallArg) : List Emit :=
  match cb with
  | some c => [⟨s, c, arg⟩]
  | none => []

/-- The callback firings of one sync-handler invocation once its
`getPermission` call settles, in program order. Mirrors the `.then` /
`.catch` body of the function built by `#getHandler`: on a resolved
descriptor in state `denied`, fire `onPermissionDenied` then
`handlerOption?.denied`; on any other resolved state, fire
`onPermissionGranted` then `handlerOption?.granted`; on rejection, fire
`onPermissionError` then `handlerOption?.error`. The invocation itself
returns nothing and has no exceptional channel: these emissions are its
only observable effect. -/
def syncInvokeEmits (ev : HandlerEvents) (opts : Option PermissionHandlerOption)
    (result : Settled PermissionStatus ErrorResponse) : List Emit :=
  match result with
  | Settled.resolved p =>
      if p.state = PermState.denied then
        fire Slot.deniedEvent ev.onPermissionDenied (CallArg.status p.id p.state)
          ++ fire Slot.optDenied (opts.bind PermissionHandlerOption.denied)
              (CallArg.status p.id p.state)
      else
        fire Slot.grantedEvent ev.onPermissionGranted (CallArg.status p.id p.state)
          ++ fire Slot.optGranted (opts.bind PermissionHandlerOption.granted)
              (CallArg.status p.id p.state)
  | Settled.rejected e =>
      fire Slot.errorEvent ev.onPermissionError (CallArg.failure e)
        ++ fire Slot.optError (opts.bind PermissionHandlerOption.error)
            (CallArg.failure e)

/-- Whether a sync-handler invocation installs an `onchange` listener on
the descriptor: only when the query resolved and `onPermissionChange`
was registered at invocation time. -/
def syncAttachesChangeListener (ev : HandlerEvents)
    (result : Settled PermissionStatus ErrorResponse) : Bool :=
  match result with
  | Settled.resolved _ => ev.onPermissionChange.isSome
  | Settled.rejected _ => false

/-- The firings of the sync handler's `onchange` listener when the
provider signals that descriptor `p` has transitioned to `newState`.
Mirrors the closure assigned to `_permission.onchange` in `#getHandler`:
if the new state is `denied`, fire `onPermissionDenied` then
`handlerOption?.denied`; then fire `onPermissionChange` with the same
live `_permission` descriptor (same identity, state read now). -/
def syncChangeEmits (ev : HandlerEvents) (opts : Option PermissionHandlerOption)
    (p : PermissionStatus) (newState : PermState) : List Emit :=
  (if newState = PermState.denied then
      fire Slot.deniedEvent ev.onPermissionDenied (CallArg.status p.id newState)
        ++ fire Slot.optDenied (opts.bind PermissionHandlerOption.denied)
            (CallArg.status p.id newState)
    else [])
    ++ fire Slot.change ev.onPermissionChange (CallArg.status p.id newState)

/-- The `\x7b granted, denied \x7d` object with which the async handler's
promise resolves; each side, when present, is the live descriptor
(identity and state). -/
structure AsyncPermissionResponse where
  granted : Option (Nat × PermState)
  denied : Option (Nat × PermState)
deriving DecidableEq, Repr

/-- One async-handler invocation once its `getPermission` call settles:
the callback firings and the settlement of the promise the handler
returned. Mirrors the executor in `#getAsyncHandler`: a resolved
descriptor in state `denied` fires `onPermissionDenied` and resolves
with a null `granted` side; any other resolved state fires
`onPermissionGranted` and resolves with a null `denied` side; a
rejection fires `onPermissionError` and rejects with the same reason. -/
def asyncInvoke (ev : HandlerEvents)
    (result : Settled PermissionStatus ErrorResponse) :
    List Emit × Settled AsyncPermissionResponse ErrorResponse :=
  match result with
  | Settled.resolved p =>
      if p.state = PermState.denied then
        (fire Slot.deniedEvent ev.onPermissionDenied (CallArg.status p.id p.state),
         Settled.resolved ⟨none, some (p.id, p.state)⟩)
      else
        (fire Slot.grantedEvent ev.onPermissionGranted (CallArg.status p.id p.state),
         Settled.resolved ⟨some (p.id, p.state), none⟩)
  | Settled.rejected e =>
      (fire Slot.errorEvent ev.onPermissionError (CallArg.failure e),
       Settled.rejected e)

/-- The firings of the async handler's `onchange` listener on a
transition of descriptor `p` to `newState`. Mirrors the closure in
`#getAsyncHandler`: if the new state is `denied`, fire
`onPermissionDenied`; then fire `onPermissionChange` with the same live
descriptor. No constructor options exist on the async path. -/
def asyncChangeEmits (ev : HandlerEvents) (p : PermissionStatus)
    (newState : PermState) : List Emit :=
  (if newState = PermState.denied then
      fire Slot.deniedEvent ev.onPermissionDenied (CallArg.status p.id newState)
    else [])
    ++ fire Slot.change ev.onPermissionChange (CallArg.status p.id newState)

/-- A lookup in an association list keyed by handler identity: the first
entry with the given key, like a WeakMap read `#events.get(handler)`. -/
def lookupIn : List (Nat × HandlerEvents) → Nat → Option HandlerEvents
  | [], _ => none
  | e :: rest, h => if e.fst = h then some e.snd else lookupIn rest h

/-- The static `#events` store: a WeakMap from handler identity to that
handler's `HandlerEvents` record, with handler identities drawn from an
allocation counter (modelling JS object identity). -/
structure EventsStore where
  entries : List (Nat × HandlerEvents)
  nextId : Nat
deriving DecidableEq, Repr

/-- The WeakMap read `#events.get(handler)`. -/
def lookupEvents (s : EventsStore) (h : Nat) : Option HandlerEvents :=
  lookupIn s.entries h

/-- The record a handler invocation reads; the entry always exists for a
constructed handler, so the default is never reached there. -/
def eventsOf (s : EventsStore) (h : Nat) : HandlerEvents :=
  (lookupEvents s h).getD {}

/-- The bookkeeping of `#getHandler` / `#getAsyncHandler`: allocate a
fresh handler identity and map it to a fresh empty record
(`#events.set(_handler, ...)` with a new empty object). -/
def newHandler (s : EventsStore) : Nat × EventsStore :=
  (s.nextId, ⟨(s.nextId, ({} : HandlerEvents)) :: s.entries, s.nextId + 1⟩)

/-- The four registration methods attached in `getPermissionHandler` /
`getAsyncPermissionHandler`, named by the slot each one writes. -/
inductive RegMethod
| changeReg
| grantedReg
| deniedReg
| errorReg
deriving DecidableEq, Repr

/-- Overwrite the slot named by `m` with callback `cb`, leaving the
other three slots unchanged. -/
def setSlot (ev : HandlerEvents) (m : RegMethod) (cb : Nat) : HandlerEvents :=
  match m with
  | RegMethod.changeReg => { ev with onPermissionChange := some cb }
  | RegMethod.grantedReg => { ev with onPermissionGranted := some cb }
  | RegMethod.deniedReg => { ev with onPermissionDenied := some cb }
  | RegMethod.errorReg => { ev with onPermissionError := some cb }

/-- A registration method call on handler `h`: write callback `cb` into
slot `m` of that handler's record in the store (the body
`#events.get(handler).onX = callback` of each registration method). -/
def register (s : EventsStore) (h : Nat) (m : RegMethod) (cb : Nat) : EventsStore :=
  ⟨s.entries.map (fun e => if e.fst = h then (e.fst, setSlot e.snd m cb) else e),
   s.nextId⟩

/-- A registration on handler `h` rewrites only `h`'s record: a lookup
of `h` sees the slot update, a lookup of any other handler is
unchanged. -/
theorem lookupIn_register (l : List (Nat × HandlerEvents)) (h g : Nat)
    (m : RegMethod) (cb : Nat) :
    lookupIn (l.map (fun e => if e.fst = h then (e.fst, setSlot e.snd m cb) else e)) g
      = if g = h then (lookupIn l g).map (fun ev => setSlot ev m cb)
        else lookupIn l g := by
  induction l with
  | nil =>
      by_cases hg : g = h <;> simp [lookupIn, hg]
  | cons e rest ih =>
      by_cases he : e.fst = h
      · by_cases hg : e.fst = g
        · have hgh : g = h := hg ▸ he
          simp [lookupIn, he, hg, hgh]
        · have hgh : ¬ (g = h) := fun hh => hg (he.trans hh.symm)
          have hhg : ¬ (h = g) := fun hh => hg (he.trans hh)
          simp [lookupIn, he, hg, ih, hgh, hhg]
      · by_cases hg : e.fst = g
        · have hgh : ¬ (g = h) := fun hh => he (hg.trans hh)
          simp [lookupIn, he, hg, hgh]
        · simp [lookupIn, he, hg, ih]

/-- A registration call seen through a lookup of the same handler: the
record is the old one with slot `m` overwritten. -/
theorem lookupEvents_register_self (s : EventsStore) (h : Nat) (m : RegMethod)
    (cb : Nat) (ev : HandlerEvents) (hl : lookupEvents s h = some ev) :
    lookupEvents (register s h m cb) h = some (setSlot ev m cb) := by
  simp only [lookupEvents, register] at hl ⊢
  rw [lookupIn_register, if_pos rfl, hl]
  rfl

/-- A sync handler with an empty registration record and no constructor
options fires no callback at all, whatever the query result. -/
theorem syncInvokeEmits_empty (result : Settled PermissionStatus ErrorResponse) :
    syncInvokeEmits {} none result = [] := by
  rcases result with p | e
  · by_cases hst : p.state = PermState.denied <;>
      simp [syncInvokeEmits, fire, hst]
  · simp [syncInvokeEmits, fire]

/-- Every emission of `fire` carries the slot and argument it was fired
with. -/
theorem mem_fire (s : Slot) (cb : Option Nat) (arg : CallArg) (em : Emit)
    (hm : em ∈ fire s cb arg) : em.slot = s ∧ em.arg = arg := by
  rcases cb with _ | c
  · simp [fire] at hm
  · simp [fire] at hm
    subst hm
    exact ⟨rfl, rfl⟩

/-- C1 counterexample: for a request whose name the provider does not
recognize, `getPermission` does NOT resolve — it rejects, with the
classified `unsupported` error response, contradicting the claim that
the promise resolves to the Error outcome. -/
theorem getPermission_c1_counterexample :
    getPermissionIn (fun _ => none) 0 ⟨"dowsing", none, none⟩
      = Settled.rejected
          ⟨ErrorState.unsupported, "TypeError", typeErrorMessage "dowsing"⟩ ∧
    ∀ p, getPermissionIn (fun _ => none) 0 ⟨"dowsing", none, none⟩
      ≠ Settled.resolved p := by
  constructor
  · rfl
  · intro p h
    simp [getPermissionIn, getPermission, providerQuery, classifyError] at h

/-- C1 (amended): `getPermission` never lets a provider failure escape
uncaught or leak raw — every provider error is caught and the returned
promise is rejected (not resolved) with the classified error response;
in particular, for a request with an unrecognized name the rejection
reason has state `unsupported`. -/
theorem getPermission_rejects_classified (env : String → Option PermState)
    (freshId : Nat) (opt : PermissionOption) (h : env opt.name = none) :
    (∀ e, getPermission (Except.error e) = Settled.rejected (classifyError e)) ∧
    getPermissionIn env freshId opt
      = Settled.rejected
          ⟨ErrorState.unsupported, "TypeError", typeErrorMessage opt.name⟩ := by
  constructor
  · intro e
    rfl
  · simp [getPermissionIn, getPermission, providerQuery, h, classifyError]

/-- Witness for C1's amended theorem at a concrete environment and
request. -/
theorem getPermission_rejects_classified_witness :
    getPermissionIn (fun n => if n = "camera" then some PermState.granted else none)
        3 ⟨"dowsing", none, none⟩
      = Settled.rejected
          ⟨ErrorState.unsupported, "TypeError", typeErrorMessage "dowsing"⟩ :=
  (getPermission_rejects_classified
    (fun n => if n = "camera" then some PermState.granted else none)
    3 ⟨"dowsing", none, none⟩ (by decide)).2

/-- C2 counterexample: a provider failure reported as a type/shape
violation (error name `"TypeError"`) is classified as `unsupported`,
not `invalid` as the claim states. -/
theorem classifyError_c2_counterexample :
    (classifyError ⟨"TypeError", "permission option is malformed"⟩).state
      = ErrorState.unsupported ∧
    (classifyError ⟨"TypeError", "permission option is malformed"⟩).state
      ≠ ErrorState.invalid := by
  constructor
  · rfl
  · intro h
    simp [classifyError] at h

/-- C2 (amended): `getPermission` classifies a caught provider failure by
its error name alone: a failure named `"TypeError"` (how the platform
reports both a type/shape violation and an unrecognized capability name)
yields state `unsupported`; every other failure yields state `invalid`. -/
theorem classifyError_cases (e : ProviderError) :
    (e.name = "TypeError" →
      classifyError e = ⟨ErrorState.unsupported, e.name, e.message⟩) ∧
    (e.name ≠ "TypeError" →
      classifyError e = ⟨ErrorState.invalid, e.name, e.message⟩) := by
  constructor
  · intro h
    simp [classifyError, h]
  · intro h
    simp [classifyError, h]

/-- Witness for C2's amended theorem on a `TypeError`-named failure and a
differently named failure. -/
theorem classifyError_cases_witness :
    classifyError ⟨"TypeError", "bad shape"⟩
      = ⟨ErrorState.unsupported, "TypeError", "bad shape"⟩ ∧
    classifyError ⟨"NotAllowedError", "blocked"⟩
      = ⟨ErrorState.invalid, "NotAllowedError", "blocked"⟩ :=
  ⟨(classifyError_cases ⟨"TypeError", "bad shape"⟩).1 rfl,
   (classifyError_cases ⟨"NotAllowedError", "blocked"⟩).2 (by decide)⟩

/-- C3: for every async-handler invocation, a provider report of
`denied` makes the returned promise resolve (not reject) with a null
`granted` side and the descriptor on the `denied` side; `granted` and
`prompt` reports resolve with the descriptor on the `granted` side and a
null `denied` side; every resolved value has exactly one non-null side;
and a provider failure makes the promise reject with the classified
error response. -/
theorem asyncInvoke_settlement (ev : HandlerEvents)
    (pr : Except ProviderError PermissionStatus) :
    (∀ p, pr = Except.ok p → p.state = PermState.denied →
      (asyncInvoke ev (getPermission pr)).2
        = Settled.resolved ⟨none, some (p.id, p.state)⟩) ∧
    (∀ p, pr = Except.ok p →
      (p.state = PermState.granted ∨ p.state = PermState.prompt) →
      (asyncInvoke ev (getPermission pr)).2
        = Settled.resolved ⟨some (p.id, p.state), none⟩) ∧
    (∀ r, (asyncInvoke ev (getPermission pr)).2 = Settled.resolved r →
      (r.granted.isSome ∧ r.denied.isNone) ∨
      (r.granted.isNone ∧ r.denied.isSome)) ∧
    (∀ e, pr = Except.error e →
      (asyncInvoke ev (getPermission pr)).2
        = Settled.rejected (classifyError e)) := by
  refine ⟨?_, ?_, ?_, ?_⟩
  · intro p hpr hst
    subst hpr
    simp [getPermission, asyncInvoke, hst]
  · intro p hpr hst
    subst hpr
    rcases hst with h | h <;> simp [getPermission, asyncInvoke, h]
  · intro r hr
    rcases pr with e | p
    · simp [getPermission, asyncInvoke] at hr
    · by_cases hst : p.state = PermState.denied
      · have h2 : (asyncInvoke ev (getPermission (Except.ok p))).2
            = Settled.resolved ⟨none, some (p.id, p.state)⟩ := by
          simp [getPermission, asyncInvoke, hst]
        rw [h2] at hr
        injection hr with h3
        subst h3
        right
        exact ⟨rfl, rfl⟩
      · have h2 : (asyncInvoke ev (getPermission (Except.ok p))).2
            = Settled.resolved ⟨some (p.id, p.state), none⟩ := by
          simp [getPermission, asyncInvoke, hst]
        rw [h2] at hr
        injection hr with h3
        subst h3
        left
        exact ⟨rfl, rfl⟩
  · intro e hpr
    subst hpr
    simp [getPermission, asyncInvoke]

/-- Witness for C3 on a concrete denied descriptor. -/
theorem asyncInvoke_settlement_witness :
    (asyncInvoke {} (getPermission (Except.ok ⟨5, PermState.denied⟩))).2
      = Settled.resolved ⟨none, some (5, PermState.denied)⟩ :=
  (asyncInvoke_settlement {} (Except.ok ⟨5, PermState.denied⟩)).1
    ⟨5, PermState.denied⟩ rfl rfl

/-- C4 counterexample: with `onPermissionChange` (callback 1) and
`onPermissionDenied` (callback 2) registered, the change listener on a
`prompt` to `denied` transition fires `onPermissionDenied` FIRST and
`onPermissionChange` second — not change-first as the claim states. -/
theorem syncChange_c4_counterexample :
    (syncChangeEmits ⟨some 1, none, some 2, none⟩ none
        ⟨0, PermState.prompt⟩ PermState.denied).map Emit.slot
      = [Slot.deniedEvent, Slot.change] ∧
    (syncChangeEmits ⟨some 1, none, some 2, none⟩ none
        ⟨0, PermState.prompt⟩ PermState.denied).map Emit.slot
      ≠ [Slot.change, Slot.deniedEvent] := by
  constructor
  · rfl
  · intro h
    simp [syncChangeEmits, fire] at h

/-- C4 (amended): with both `onPermissionChange` and `onPermissionDenied`
registered before invocation, a provider transition to `denied` triggers
both callbacks on either handler flavor, with `onPermissionDenied`
invoked first and `onPermissionChange` last (on the sync path any
constructor `denied` option fires between them). -/
theorem changeListener_denied_order (ev : HandlerEvents)
    (opts : Option PermissionHandlerOption) (p : PermissionStatus)
    (c d : Nat) (hch : ev.onPermissionChange = some c)
    (hd : ev.onPermissionDenied = some d) :
    syncChangeEmits ev opts p PermState.denied
      = ⟨Slot.deniedEvent, d, CallArg.status p.id PermState.denied⟩
        :: (fire Slot.optDenied (opts.bind PermissionHandlerOption.denied)
              (CallArg.status p.id PermState.denied)
            ++ [⟨Slot.change, c, CallArg.status p.id PermState.denied⟩]) ∧
    asyncChangeEmits ev p PermState.denied
      = [⟨Slot.deniedEvent, d, CallArg.status p.id PermState.denied⟩,
         ⟨Slot.change, c, CallArg.status p.id PermState.denied⟩] := by
  constructor
  · simp [syncChangeEmits, fire, hch, hd]
  · simp [asyncChangeEmits, fire, hch, hd]

/-- Witness for C4's amended theorem at concrete registrations. -/
theorem changeListener_denied_order_witness :
    syncChangeEmits ⟨some 1, none, some 2, none⟩ none
        ⟨0, PermState.prompt⟩ PermState.denied
      = [⟨Slot.deniedEvent, 2, CallArg.status 0 PermState.denied⟩,
         ⟨Slot.change, 1, CallArg.status 0 PermState.denied⟩] := by
  have h := changeListener_denied_order ⟨some 1, none, some 2, none⟩ none
    ⟨0, PermState.prompt⟩ 1 2 rfl rfl
  simpa [fire] using h.1

/-- C5: for a sync-handler invocation whose query resolves, a `granted`
or `prompt` state fires the registered `onPermissionGranted` callback
first and `options.granted` second, each exactly once and nothing else
(in particular no denied/error callback); a `denied` state fires
`onPermissionDenied` then `options.denied` instead, and no granted/error
callback. -/
theorem syncInvoke_success_routing (ev : HandlerEvents)
    (opts : PermissionHandlerOption) (p : PermissionStatus)
    (g og d od : Nat)
    (hg : ev.onPermissionGranted = some g) (hog : opts.granted = some og)
    (hd : ev.onPermissionDenied = some d) (hod : opts.denied = some od) :
    ((p.state = PermState.granted ∨ p.state = PermState.prompt) →
      syncInvokeEmits ev (some opts) (Settled.resolved p)
        = [⟨Slot.grantedEvent, g, CallArg.status p.id p.state⟩,
           ⟨Slot.optGranted, og, CallArg.status p.id p.state⟩]) ∧
    (p.state = PermState.denied →
      syncInvokeEmits ev (some opts) (Settled.resolved p)
        = [⟨Slot.deniedEvent, d, CallArg.status p.id p.state⟩,
           ⟨Slot.optDenied, od, CallArg.status p.id p.state⟩]) := by
  constructor
  · intro hst
    have hne : p.state ≠ PermState.denied := by
      rcases hst with h | h <;> simp [h]
    simp [syncInvokeEmits, fire, hne, hg, hog]
  · intro hst
    simp [syncInvokeEmits, fire, hst, hd, hod]

/-- Witness for C5 on a concrete granted descriptor with all four
callbacks registered. -/
theorem syncInvoke_success_routing_witness :
    syncInvokeEmits ⟨none, some 10, some 20, none⟩
        (some ⟨some 11, some 21, none⟩)
        (Settled.resolved ⟨4, PermState.granted⟩)
      = [⟨Slot.grantedEvent, 10, CallArg.status 4 PermState.granted⟩,
         ⟨Slot.optGranted, 11, CallArg.status 4 PermState.granted⟩] :=
  (syncInvoke_success_routing ⟨none, some 10, some 20, none⟩
      ⟨some 11, some 21, none⟩ ⟨4, PermState.granted⟩
      10 11 20 21 rfl rfl rfl rfl).1 (Or.inl rfl)

/-- C6: a sync-handler invocation surfaces nothing to its caller except
callback firings (its type has no exceptional channel), and a provider
failure is routed exactly to `onPermissionError` then `options.error`;
every firing on the failure path comes from one of those two slots, and
with neither registered the failure is silently dropped: no firing at
all. -/
theorem syncInvoke_failure_routing (ev : HandlerEvents)
    (opts : Option PermissionHandlerOption) (e : ErrorResponse) :
    syncInvokeEmits ev opts (Settled.rejected e)
      = fire Slot.errorEvent ev.onPermissionError (CallArg.failure e)
        ++ fire Slot.optError (opts.bind PermissionHandlerOption.error)
            (CallArg.failure e) ∧
    (∀ em ∈ syncInvokeEmits ev opts (Settled.rejected e),
      em.slot = Slot.errorEvent ∨ em.slot = Slot.optError) ∧
    (ev.onPermissionError = none →
      opts.bind PermissionHandlerOption.error = none →
      syncInvokeEmits ev opts (Settled.rejected e) = []) := by
  refine ⟨rfl, ?_, ?_⟩
  · intro em hm
    simp only [syncInvokeEmits] at hm
    rcases List.mem_append.mp hm with h | h
    · left
      rcases hcb : ev.onPermissionError with _ | c <;> simp [fire, hcb] at h
      simp [h]
    · right
      rcases hcb : opts.bind PermissionHandlerOption.error with _ | c <;>
        simp [fire, hcb] at h
      simp [h]
  · intro h1 h2
    simp [syncInvokeEmits, fire, h1, h2]

/-- Witness for C6 with no error callbacks registered: the failure is
silently dropped. -/
theorem syncInvoke_failure_routing_witness :
    syncInvokeEmits {} none
        (Settled.rejected ⟨ErrorState.invalid, "AbortError", "gone"⟩) = [] :=
  (syncInvoke_failure_routing {} none
      ⟨ErrorState.invalid, "AbortError", "gone"⟩).2.2 rfl rfl

/-- C7: two separately constructed handlers have disjoint registration
state: each construction allocates a distinct identity mapped to a
fresh empty record, registering any callback on the first leaves the
second's record the empty record, and invoking the second (constructed
without options) fires nothing at all — in particular never the
callback registered on the first. -/
theorem handlers_registration_isolated (s : EventsStore) (m : RegMethod) (cb : Nat) :
    (newHandler s).1 ≠ (newHandler (newHandler s).2).1 ∧
    lookupEvents (newHandler (newHandler s).2).2 (newHandler s).1
      = some ({} : HandlerEvents) ∧
    lookupEvents (newHandler (newHandler s).2).2 (newHandler (newHandler s).2).1
      = some ({} : HandlerEvents) ∧
    lookupEvents (register (newHandler (newHandler s).2).2 (newHandler s).1 m cb)
        (newHandler (newHandler s).2).1 = some ({} : HandlerEvents) ∧
    ∀ result, syncInvokeEmits
        (eventsOf (register (newHandler (newHandler s).2).2 (newHandler s).1 m cb)
          (newHandler (newHandler s).2).1) none result = [] := by
  have hne : s.nextId + 1 ≠ s.nextId := Nat.succ_ne_self s.nextId
  have hlook : lookupEvents
      (register (newHandler (newHandler s).2).2 (newHandler s).1 m cb)
      (newHandler (newHandler s).2).1 = some ({} : HandlerEvents) := by
    simp [newHandler, register, lookupEvents, lookupIn_register, lookupIn, hne]
  refine ⟨?_, ?_, ?_, hlook, ?_⟩
  · simp [newHandler]
  · simp [newHandler, lookupEvents, lookupIn, hne]
  · simp [newHandler, lookupEvents, lookupIn]
  · intro result
    rw [show eventsOf (register (newHandler (newHandler s).2).2 (newHandler s).1 m cb)
          (newHandler (newHandler s).2).1 = ({} : HandlerEvents) from by
        simp [eventsOf, hlook]]
    exact syncInvokeEmits_empty result

/-- C8: each registration method writes its callback into the slot of
the same name in that handler's record, overwriting whatever was stored
there (a single slot, last write wins), and leaves the other three
slots of the record unchanged. -/
theorem register_overwrites_named_slot (s : EventsStore) (h cb : Nat)
    (ev : HandlerEvents) (hl : lookupEvents s h = some ev) :
    lookupEvents (register s h RegMethod.changeReg cb) h
      = some ⟨some cb, ev.onPermissionGranted, ev.onPermissionDenied,
              ev.onPermissionError⟩ ∧
    lookupEvents (register s h RegMethod.grantedReg cb) h
      = some ⟨ev.onPermissionChange, some cb, ev.onPermissionDenied,
              ev.onPermissionError⟩ ∧
    lookupEvents (register s h RegMethod.deniedReg cb) h
      = some ⟨ev.onPermissionChange, ev.onPermissionGranted, some cb,
              ev.onPermissionError⟩ ∧
    lookupEvents (register s h RegMethod.errorReg cb) h
      = some ⟨ev.onPermissionChange, ev.onPermissionGranted,
              ev.onPermissionDenied, some cb⟩ := by
  refine ⟨?_, ?_, ?_, ?_⟩ <;> rw [lookupEvents_register_self s h _ cb ev hl] <;> rfl

/-- Witness for C8: registering a denied callback on a concrete store
fills exactly the denied slot. -/
theorem register_overwrites_named_slot_witness :
    lookupEvents (register ⟨[(0, ({} : HandlerEvents))], 1⟩ 0 RegMethod.deniedReg 9) 0
      = some ⟨none, none, some 9, none⟩ :=
  (register_overwrites_named_slot ⟨[(0, ({} : HandlerEvents))], 1⟩ 0 9
      ({} : HandlerEvents) rfl).2.2.1

/-- C9 counterexample: the change listener hands `onPermissionChange`
the SAME live descriptor (identity 7) that the initial outcome carried,
so the argument is not a freshly constructed outcome as the claim
states. -/
theorem syncChange_c9_counterexample :
    (syncChangeEmits ⟨some 1, none, none, none⟩ none
        ⟨7, PermState.prompt⟩ PermState.denied).map Emit.arg
      = [CallArg.status 7 PermState.denied] ∧
    ¬ (∀ em ∈ syncChangeEmits ⟨some 1, none, none, none⟩ none
          ⟨7, PermState.prompt⟩ PermState.denied,
        em.arg ≠ CallArg.status 7 PermState.denied) := by
  constructor
  · rfl
  · intro hAll
    exact hAll ⟨Slot.change, 1, CallArg.status 7 PermState.denied⟩ (by decide) rfl

/-- C9 (amended): each provider-signalled transition makes the change
listener (on either handler flavor) invoke `onPermissionChange` exactly
once, passing the same live descriptor produced by the initial query —
same identity, with its `state` field read at notification time
reflecting the new state. -/
theorem changeListener_passes_live_descriptor (ev : HandlerEvents)
    (opts : Option PermissionHandlerOption) (p : PermissionStatus)
    (ns : PermState) (c : Nat) (hch : ev.onPermissionChange = some c) :
    (∀ em ∈ syncChangeEmits ev opts p ns, em.slot = Slot.change →
      em = ⟨Slot.change, c, CallArg.status p.id ns⟩) ∧
    Emit.mk Slot.change c (CallArg.status p.id ns) ∈ syncChangeEmits ev opts p ns ∧
    (∀ em ∈ asyncChangeEmits ev p ns, em.slot = Slot.change →
      em = ⟨Slot.change, c, CallArg.status p.id ns⟩) ∧
    Emit.mk Slot.change c (CallArg.status p.id ns) ∈ asyncChangeEmits ev p ns := by
  have hsync : syncChangeEmits ev opts p ns
      = (if ns = PermState.denied then
          fire Slot.deniedEvent ev.onPermissionDenied (CallArg.status p.id ns)
            ++ fire Slot.optDenied (opts.bind PermissionHandlerOption.denied)
                (CallArg.status p.id ns)
         else [])
        ++ [⟨Slot.change, c, CallArg.status p.id ns⟩] := by
    simp [syncChangeEmits, fire, hch]
  have hasync : asyncChangeEmits ev p ns
      = (if ns = PermState.denied then
          fire Slot.deniedEvent ev.onPermissionDenied (CallArg.status p.id ns)
         else [])
        ++ [⟨Slot.change, c, CallArg.status p.id ns⟩] := by
    simp [asyncChangeEmits, fire, hch]
  refine ⟨?_, ?_, ?_, ?_⟩
  · intro em hm hslot
    rw [hsync] at hm
    rcases List.mem_append.mp hm with hin | hin
    · exfalso
      by_cases hd : ns = PermState.denied
      · rw [if_pos hd] at hin
        rcases List.mem_append.mp hin with h2 | h2
        · have h3 := (mem_fire _ _ _ _ h2).1
          rw [hslot] at h3
          exact absurd h3 (by decide)
        · have h3 := (mem_fire _ _ _ _ h2).1
          rw [hslot] at h3
          exact absurd h3 (by decide)
      · rw [if_neg hd] at hin
        exact absurd hin (List.not_mem_nil em)
    · simpa using hin
  · rw [hsync]
    exact List.mem_append_right _ (List.mem_singleton.mpr rfl)
  · intro em hm hslot
    rw [hasync] at hm
    rcases List.mem_append.mp hm with hin | hin
    · exfalso
      by_cases hd : ns = PermState.denied
      · rw [if_pos hd] at hin
        have h3 := (mem_fire _ _ _ _ hin).1
        rw [hslot] at h3
        exact absurd h3 (by decide)
      · rw [if_neg hd] at hin
        exact absurd hin (List.not_mem_nil em)
    · simpa using hin
  · rw [hasync]
    exact List.mem_append_right _ (List.mem_singleton.mpr rfl)

/-- Witness for C9's amended theorem on a concrete transition. -/
theorem changeListener_passes_live_descriptor_witness :
    Emit.mk Slot.change 3 (CallArg.status 2 PermState.granted)
      ∈ syncChangeEmits ⟨some 3, none, none, none⟩ none
          ⟨2, PermState.prompt⟩ PermState.granted :=
  (changeListener_passes_live_descriptor ⟨some 3, none, none, none⟩ none
      ⟨2, PermState.prompt⟩ PermState.granted 3 rfl).2.1

/-- C10: on a provider transition to `denied`, the sync handler's change
listener also fires the constructor-supplied `options.denied` callback
(in addition to the registered `onPermissionDenied`), while the async
handler's change listener never fires any constructor-option slot. -/
theorem changeListener_option_callbacks (ev : HandlerEvents)
    (opts : PermissionHandlerOption) (p : PermissionStatus) (od : Nat)
    (hod : opts.denied = some od) :
    Emit.mk Slot.optDenied od (CallArg.status p.id PermState.denied)
      ∈ syncChangeEmits ev (some opts) p PermState.denied ∧
    (∀ ns, ∀ em ∈ asyncChangeEmits ev p ns,
      em.slot ≠ Slot.optGranted ∧ em.slot ≠ Slot.optDenied ∧
      em.slot ≠ Slot.optError) := by
  constructor
  · simp only [syncChangeEmits, if_pos rfl]
    apply List.mem_append_left
    apply List.mem_append_right
    simp [fire, hod]
  · intro ns em hm
    simp only [asyncChangeEmits] at hm
    rcases List.mem_append.mp hm with hin | hin
    · by_cases hd : ns = PermState.denied
      · rw [if_pos hd] at hin
        have h3 := (mem_fire _ _ _ _ hin).1
        refine ⟨?_, ?_, ?_⟩ <;> rw [h3] <;> decide
      · rw [if_neg hd] at hin
        exact absurd hin (List.not_mem_nil em)
    · have h3 := (mem_fire _ _ _ _ hin).1
      refine ⟨?_, ?_, ?_⟩ <;> rw [h3] <;> decide

/-- Witness for C10 with a concrete constructor-option denied callback. -/
theorem changeListener_option_callbacks_witness :
    Emit.mk Slot.optDenied 8 (CallArg.status 3 PermState.denied)
      ∈ syncChangeEmits ({} : HandlerEvents) (some ⟨none, some 8, none⟩)
          ⟨3, PermState.granted⟩ PermState.denied :=
  (changeListener_option_callbacks ({} : HandlerEvents) ⟨none, some 8, none⟩
      ⟨3, PermState.granted⟩ 8 rfl).1

end PermissionsAPI
